import Mathlib

/-!
Shallow embedding of `paddle/framework/tensor_impl.h`: the Tensor type
(shape, byte offset, shared holder), typed access with checked bounds,
lazy allocate-or-reuse, zero-copy slicing and sharing, and the
place-dispatched cross-device copy. The embedding models the
accelerator-enabled build, in which both the host and the device
allocation branches of `mutable_data` succeed. Allocation identity is
made observable by tagging each holder with the id the allocator handed
out; `mutable_data` receives the id a fresh allocation would get as an
explicit argument. Fatal `PADDLE_ENFORCE` failures are modelled as
`Except.error` values, one error constructor per distinct enforce site.
-/

/-- A memory space: the host, or one of the accelerator devices
(`platform::CPUPlace` / `platform::GPUPlace` with a device index). -/
inductive Place where
  | CPUPlace : Place
  | GPUPlace : Nat → Place
deriving DecidableEq, Repr

/-- The reference-counted untyped allocation (`Placeholder`): the Place it
lives in, its byte capacity, and the identity of the allocation. -/
structure Holder where
  place : Place
  size : Nat
  id : Nat
deriving DecidableEq, Repr

/-- A typed pointer value: the identity of the holder it points into and
the byte address relative to the holder's base (`holder_->ptr() + offset_`). -/
structure Ptr where
  hid : Nat
  off : Nat
deriving DecidableEq, Repr

/-- The distinct fatal-error sites of the fragment, one constructor per
`PADDLE_ENFORCE*` message. -/
inductive TError where
  | nullHolder : TError
  | boundsError : TError
  | numelNotPositive : TError
  | sliceBeginNeg : TError
  | sliceEndOOB : TError
  | sliceBeginGeEnd : TError
  | ctxNotGpu : TError
  | ctxDeviceMismatch : TError
deriving DecidableEq, Repr

/-- A Tensor: a shape (`dims_`), a byte offset (`offset_`) and a nullable
shared reference to a holder (`holder_`). -/
structure Tensor where
  dims : List Nat
  offset : Nat
  holder : Option Holder
deriving DecidableEq, Repr

/-- The default-constructed Tensor: empty shape, zero offset, no holder. -/
def Tensor.empty : Tensor := ⟨[], 0, none⟩

/-- The execution context as the copy routine sees it: the Place it is
bound to and its ordering token (`stream()`). -/
structure DeviceContext where
  place : Place
  stream : Nat
deriving DecidableEq, Repr

/-- The argument vector of a `memory::Copy` invocation, recording which
transfer the dispatch selected; `stream = none` is the synchronous
host-to-host overload, `some s` the stream-ordered asynchronous one. -/
structure CopyArgs where
  dstPlace : Place
  dstPtr : Ptr
  srcPlace : Place
  srcPtr : Ptr
  size : Nat
  stream : Option Nat
deriving DecidableEq, Repr

/-- `Tensor::numel`: `product(dims_)`, the number of elements. -/
def Tensor.numel (t : Tensor) : Nat := t.dims.prod

/-- `Tensor::check_memory_size<T>`: enforce the holder is non-null, then
enforce `holder_->size() >= numel() * sizeof(T) + offset_`.  `sz` stands
for `sizeof(T)`. -/
def Tensor.check_memory_size (sz : Nat) (t : Tensor) : Except TError Unit :=
  match t.holder with
  | none => Except.error TError.nullHolder
  | some h =>
    if t.numel * sz + t.offset ≤ h.size then Except.ok ()
    else Except.error TError.boundsError

/-- `Tensor::data<T>`: run `check_memory_size<T>` and return the pointer
`holder_->ptr() + offset_`; no allocation happens. -/
def Tensor.data (sz : Nat) (t : Tensor) : Except TError Ptr :=
  match t.check_memory_size sz with
  | Except.error e => Except.error e
  | Except.ok _ =>
    match t.holder with
    | none => Except.error TError.nullHolder
    | some h => Except.ok ⟨h.id, t.offset⟩

/-- `Tensor::mutable_data<T>(place)`: enforce `numel() > 0`; reallocate
exactly when `holder_ == nullptr || !(holder_->place() == place) ||
holder_->size() < size + offset_` where `size = numel() * sizeof(T)`,
resetting `offset_` to `0`; return `holder_->ptr() + offset_`.  `fresh`
is the allocation id a new holder would receive; in the
accelerator-enabled build both Place kinds allocate successfully. -/
def Tensor.mutable_data (sz : Nat) (place : Place) (fresh : Nat) (t : Tensor) :
    Except TError (Tensor × Ptr) :=
  if 0 < t.numel then
    match t.holder with
    | none =>
      Except.ok (⟨t.dims, 0, some ⟨place, t.numel * sz, fresh⟩⟩, ⟨fresh, 0⟩)
    | some h =>
      if h.place = place ∧ t.numel * sz + t.offset ≤ h.size then
        Except.ok (t, ⟨h.id, t.offset⟩)
      else
        Except.ok (⟨t.dims, 0, some ⟨place, t.numel * sz, fresh⟩⟩, ⟨fresh, 0⟩)
  else Except.error TError.numelNotPositive

/-- `Tensor::Resize`: assign `dims_` and return the tensor. -/
def Tensor.Resize (dims : List Nat) (t : Tensor) : Tensor :=
  ⟨dims, t.offset, t.holder⟩

/-- `Tensor::ShareDataWith<T>(src)`: run `src.check_memory_size<T>()`,
then `*this = src`; the result is the full state of `src`. -/
def Tensor.ShareDataWith (sz : Nat) (dst src : Tensor) : Except TError Tensor :=
  match src.check_memory_size sz with
  | Except.error e => Except.error e
  | Except.ok _ => Except.ok src

/-- Replace the leading extent of a dims vector (`dst_dims[0] = ...`). -/
def setLeading (dims : List Nat) (v : Nat) : List Nat :=
  match dims with
  | [] => []
  | _ :: rest => v :: rest

/-- `Tensor::Slice<T>(begin_idx, end_idx)`: check memory, enforce
`begin_idx >= 0`, `end_idx <= dims_[0]`, `begin_idx < end_idx`; if
`dims_[0] == 1` return `*this`, else return a tensor sharing `holder_`
with leading extent `end_idx - begin_idx` and offset advanced by
`begin_idx * (numel() / dims_[0]) * sizeof(T)` bytes. -/
def Tensor.Slice (sz : Nat) (t : Tensor) (begin_idx end_idx : Int) :
    Except TError Tensor :=
  match t.check_memory_size sz with
  | Except.error e => Except.error e
  | Except.ok _ =>
    if begin_idx < 0 then Except.error TError.sliceBeginNeg
    else if (t.dims.headD 0 : Int) < end_idx then Except.error TError.sliceEndOOB
    else if end_idx ≤ begin_idx then Except.error TError.sliceBeginGeEnd
    else if t.dims.headD 0 = 1 then Except.ok t
    else
      Except.ok ⟨setLeading t.dims (end_idx - begin_idx).toNat,
                 t.offset + begin_idx.toNat * (t.numel / t.dims.headD 0) * sz,
                 t.holder⟩

/-- `Tensor::CopyFrom<T>(src, dst_place, ctx)`: check `src`'s memory,
resize to `src.dims()`, take `src_ptr = src.data<T>()` and
`dst_ptr = mutable_data<T>(dst_place)`, then dispatch on the kinds of
`src_place` and `dst_place`.  Host-to-host issues the synchronous copy;
each device-involving branch enforces `is_gpu_place(ctx.GetPlace())` and
one `PADDLE_ENFORCE_EQ` of a GPU endpoint against `ctx`'s device (the
source device when the source is on GPU, else the destination device),
then issues the stream-ordered copy.  Returns the updated destination
tensor and the `memory::Copy` arguments. -/
def Tensor.CopyFrom (sz : Nat) (dst src : Tensor) (dst_place : Place)
    (ctx : DeviceContext) (fresh : Nat) : Except TError (Tensor × CopyArgs) :=
  match src.check_memory_size sz with
  | Except.error e => Except.error e
  | Except.ok _ =>
    match src.holder with
    | none => Except.error TError.nullHolder
    | some sh =>
      match src.data sz with
      | Except.error e => Except.error e
      | Except.ok src_ptr =>
        match (dst.Resize src.dims).mutable_data sz dst_place fresh with
        | Except.error e => Except.error e
        | Except.ok (dst1, dst_ptr) =>
          let size := src.numel * sz
          match sh.place, dst_place with
          | Place.CPUPlace, Place.CPUPlace =>
            Except.ok (dst1, ⟨dst_place, dst_ptr, sh.place, src_ptr, size, none⟩)
          | Place.GPUPlace sdev, Place.CPUPlace =>
            match ctx.place with
            | Place.CPUPlace => Except.error TError.ctxNotGpu
            | Place.GPUPlace cdev =>
              if sdev = cdev then
                Except.ok (dst1, ⟨dst_place, dst_ptr, sh.place, src_ptr, size,
                                  some ctx.stream⟩)
              else Except.error TError.ctxDeviceMismatch
          | Place.CPUPlace, Place.GPUPlace ddev =>
            match ctx.place with
            | Place.CPUPlace => Except.error TError.ctxNotGpu
            | Place.GPUPlace cdev =>
              if ddev = cdev then
                Except.ok (dst1, ⟨dst_place, dst_ptr, sh.place, src_ptr, size,
                                  some ctx.stream⟩)
              else Except.error TError.ctxDeviceMismatch
          | Place.GPUPlace sdev, Place.GPUPlace _ =>
            match ctx.place with
            | Place.CPUPlace => Except.error TError.ctxNotGpu
            | Place.GPUPlace cdev =>
              if sdev = cdev then
                Except.ok (dst1, ⟨dst_place, dst_ptr, sh.place, src_ptr, size,
                                  some ctx.stream⟩)
              else Except.error TError.ctxDeviceMismatch

/-- Modelled from the spec: `flatten_to_2d(dims, num_col_dims)` lives in
the external DDim helpers, not in this fragment; per the spec it collapses
the shape to exactly two extents, the product of the leading
`num_col_dims` extents and the product of the remaining extents. -/
def flatten_to_2d (dims : List Nat) (num_col_dims : Nat) : List Nat :=
  [(dims.take num_col_dims).prod, (dims.drop num_col_dims).prod]

/-- `ReshapeToMatrix<T>(src, num_col_dims)`: a fresh tensor shares `src`'s
data, then is resized to `flatten_to_2d(src.dims(), num_col_dims)`. -/
def ReshapeToMatrix (sz : Nat) (src : Tensor) (num_col_dims : Nat) :
    Except TError Tensor :=
  match Tensor.ShareDataWith sz Tensor.empty src with
  | Except.error e => Except.error e
  | Except.ok res =>
    Except.ok (res.Resize (flatten_to_2d src.dims num_col_dims))

/-- C5: `data<T>()` fails with the null-holder error when the holder is
null (in particular on a default-constructed tensor, before any
`mutable_data` call), fails with the distinct memory-bounds error when
the holder is non-null but smaller than `numel*sizeof(T)+offset`, and
when the check passes performs no allocation and returns the pointer
`holder.ptr + offset`. -/
theorem data_error_taxonomy (sz : Nat) (t : Tensor) :
    (t.holder = none → t.data sz = Except.error TError.nullHolder) ∧
    (∀ h : Holder, t.holder = some h → h.size < t.numel * sz + t.offset →
      t.data sz = Except.error TError.boundsError) ∧
    (∀ h : Holder, t.holder = some h → t.numel * sz + t.offset ≤ h.size →
      t.data sz = Except.ok ⟨h.id, t.offset⟩) ∧
    Tensor.empty.data sz = Except.error TError.nullHolder ∧
    TError.nullHolder ≠ TError.boundsError := by
  refine ⟨?_, ?_, ?_, ?_, by decide⟩
  · intro hh
    simp [Tensor.data, Tensor.check_memory_size, hh]
  · intro h hh hlt
    simp [Tensor.data, Tensor.check_memory_size, hh, Nat.not_le.mpr hlt]
  · intro h hh hle
    simp [Tensor.data, Tensor.check_memory_size, hh, hle]
  · simp [Tensor.data, Tensor.check_memory_size, Tensor.empty]

theorem data_error_taxonomy_witness :
    Tensor.data 4 ⟨[3], 2, some ⟨Place.CPUPlace, 8, 0⟩⟩ =
      Except.error TError.boundsError :=
  (data_error_taxonomy 4 ⟨[3], 2, some ⟨Place.CPUPlace, 8, 0⟩⟩).2.1
    ⟨Place.CPUPlace, 8, 0⟩ rfl (by decide)

/-- C6: `Resize` replaces only the shape: the holder reference and the
offset are unchanged, there is no validation and no allocation (the
function is total), and the resized tensor is returned for chaining. -/
theorem resize_frame (t : Tensor) (d : List Nat) :
    (t.Resize d).dims = d ∧ (t.Resize d).holder = t.holder ∧
    (t.Resize d).offset = t.offset ∧ t.Resize d = ⟨d, t.offset, t.holder⟩ :=
  ⟨rfl, rfl, rfl, rfl⟩

/-- C7: a shape with any zero extent has `numel = 0`, and `mutable_data`
on a tensor whose `numel` is not positive is a fatal precondition error
reported before anything else: no allocation happens and no pointer is
returned. -/
theorem mutable_data_numel_precondition (sz : Nat) (place : Place)
    (fresh : Nat) (t : Tensor) :
    (0 ∈ t.dims → t.numel = 0) ∧
    (t.numel = 0 →
      t.mutable_data sz place fresh = Except.error TError.numelNotPositive) := by
  constructor
  · intro h0
    exact List.prod_eq_zero h0
  · intro hz
    simp [Tensor.mutable_data, hz]

theorem mutable_data_numel_precondition_witness :
    Tensor.mutable_data 4 Place.CPUPlace 1 ⟨[2, 0, 3], 5, none⟩ =
      Except.error TError.numelNotPositive :=
  (mutable_data_numel_precondition 4 Place.CPUPlace 1 ⟨[2, 0, 3], 5, none⟩).2
    (by decide)

/-- Helper: the reuse path of `mutable_data` as a rewriting equation. -/
theorem mutable_data_reuse_eq (sz : Nat) (place : Place) (fresh : Nat)
    (t : Tensor) (h : Holder) (hn : 0 < t.numel) (hh : t.holder = some h)
    (hp : h.place = place) (hs : t.numel * sz + t.offset ≤ h.size) :
    t.mutable_data sz place fresh = Except.ok (t, ⟨h.id, t.offset⟩) := by
  simp [Tensor.mutable_data, hn, hh, hp, hs]

/-- Helper: the reallocation path of `mutable_data` as a rewriting
equation. -/
theorem mutable_data_alloc_eq (sz : Nat) (place : Place) (fresh : Nat)
    (t : Tensor) (hn : 0 < t.numel)
    (hr : t.holder = none ∨ ∃ h : Holder, t.holder = some h ∧
      ¬(h.place = place ∧ t.numel * sz + t.offset ≤ h.size)) :
    t.mutable_data sz place fresh =
      Except.ok (⟨t.dims, 0, some ⟨place, t.numel * sz, fresh⟩⟩, ⟨fresh, 0⟩) := by
  rcases hr with hh | ⟨h, hh, hnc⟩
  · simp [Tensor.mutable_data, hn, hh]
  · simp only [Tensor.mutable_data, if_pos hn, hh]
    rw [if_neg hnc]

/-- C10: on the reuse path of `mutable_data` (holder non-null, same place,
sufficient size) the tensor is unchanged — holder reference and offset
included, so the offset is not reset — and the returned pointer is
`holder.ptr + offset`. -/
theorem mutable_data_reuse_frame (sz : Nat) (place : Place) (fresh : Nat)
    (t : Tensor) (h : Holder) (hn : 0 < t.numel) (hh : t.holder = some h)
    (hp : h.place = place) (hs : t.numel * sz + t.offset ≤ h.size) :
    t.mutable_data sz place fresh = Except.ok (t, ⟨h.id, t.offset⟩) := by
  simp [Tensor.mutable_data, hn, hh, hp, hs]

theorem mutable_data_reuse_frame_witness :
    Tensor.mutable_data 4 Place.CPUPlace 9 ⟨[2], 8, some ⟨Place.CPUPlace, 16, 3⟩⟩ =
      Except.ok (⟨[2], 8, some ⟨Place.CPUPlace, 16, 3⟩⟩, ⟨3, 8⟩) :=
  mutable_data_reuse_frame 4 Place.CPUPlace 9 _ ⟨Place.CPUPlace, 16, 3⟩
    (by decide) rfl rfl (by decide)

/-- C1: for `numel > 0`, `mutable_data` reuses the held buffer iff it is
non-null, resides in the requested place, and holds at least
`numel*sizeof(T)+offset` bytes; otherwise it allocates a holder of
exactly `numel*sizeof(T)` bytes in the requested place, replaces the
reference, and resets the offset to 0.  In particular a second call
against the fresh allocation reuses it whenever the place matches and
the requirement fits, and reallocates on a different place or a larger
requirement. -/
theorem mutable_data_alloc_or_reuse (sz : Nat) (place : Place) (fresh : Nat)
    (t : Tensor) (hn : 0 < t.numel) :
    (∀ h : Holder, t.holder = some h → h.place = place →
      t.numel * sz + t.offset ≤ h.size →
      t.mutable_data sz place fresh = Except.ok (t, ⟨h.id, t.offset⟩)) ∧
    (t.holder = none →
      t.mutable_data sz place fresh =
        Except.ok (⟨t.dims, 0, some ⟨place, t.numel * sz, fresh⟩⟩, ⟨fresh, 0⟩)) ∧
    (∀ h : Holder, t.holder = some h →
      ¬(h.place = place ∧ t.numel * sz + t.offset ≤ h.size) →
      t.mutable_data sz place fresh =
        Except.ok (⟨t.dims, 0, some ⟨place, t.numel * sz, fresh⟩⟩, ⟨fresh, 0⟩)) ∧
    (∀ (dims2 : List Nat) (sz2 fresh2 : Nat), 0 < dims2.prod →
      dims2.prod * sz2 ≤ t.numel * sz →
      Tensor.mutable_data sz2 place fresh2
          ⟨dims2, 0, some ⟨place, t.numel * sz, fresh⟩⟩ =
        Except.ok (⟨dims2, 0, some ⟨place, t.numel * sz, fresh⟩⟩, ⟨fresh, 0⟩)) ∧
    (∀ (dims2 : List Nat) (sz2 fresh2 : Nat) (place2 : Place), 0 < dims2.prod →
      place2 ≠ place →
      Tensor.mutable_data sz2 place2 fresh2
          ⟨dims2, 0, some ⟨place, t.numel * sz, fresh⟩⟩ =
        Except.ok (⟨dims2, 0, some ⟨place2, dims2.prod * sz2, fresh2⟩⟩,
                   ⟨fresh2, 0⟩)) ∧
    (∀ (dims2 : List Nat) (sz2 fresh2 : Nat), t.numel * sz < dims2.prod * sz2 →
      Tensor.mutable_data sz2 place fresh2
          ⟨dims2, 0, some ⟨place, t.numel * sz, fresh⟩⟩ =
        Except.ok (⟨dims2, 0, some ⟨place, dims2.prod * sz2, fresh2⟩⟩,
                   ⟨fresh2, 0⟩)) := by
  refine ⟨?_, ?_, ?_, ?_, ?_, ?_⟩
  · intro h hh hp hs
    exact mutable_data_reuse_eq sz place fresh t h hn hh hp hs
  · intro hh
    exact mutable_data_alloc_eq sz place fresh t hn (Or.inl hh)
  · intro h hh hnc
    exact mutable_data_alloc_eq sz place fresh t hn (Or.inr ⟨h, hh, hnc⟩)
  · intro dims2 sz2 fresh2 hp2 hle
    exact mutable_data_reuse_eq sz2 place fresh2
      ⟨dims2, 0, some ⟨place, t.numel * sz, fresh⟩⟩ ⟨place, t.numel * sz, fresh⟩
      (by simpa [Tensor.numel] using hp2) rfl rfl
      (by simpa [Tensor.numel] using hle)
  · intro dims2 sz2 fresh2 place2 hp2 hne
    exact mutable_data_alloc_eq sz2 place2 fresh2
      ⟨dims2, 0, some ⟨place, t.numel * sz, fresh⟩⟩
      (by simpa [Tensor.numel] using hp2)
      (Or.inr ⟨⟨place, t.numel * sz, fresh⟩, rfl, fun hand => hne hand.1.symm⟩)
  · intro dims2 sz2 fresh2 hlt
    have hp2 : 0 < dims2.prod := by
      rcases Nat.eq_zero_or_pos dims2.prod with h0 | h0
      · rw [h0] at hlt
        simp at hlt
      · exact h0
    refine mutable_data_alloc_eq sz2 place fresh2
      ⟨dims2, 0, some ⟨place, t.numel * sz, fresh⟩⟩
      (by simpa [Tensor.numel] using hp2)
      (Or.inr ⟨⟨place, t.numel * sz, fresh⟩, rfl, fun hand => ?_⟩)
    have hand2 := hand.2
    simp only [Tensor.numel] at hand2 hlt
    omega

theorem mutable_data_alloc_or_reuse_witness :
    Tensor.mutable_data 4 Place.CPUPlace 7 ⟨[2, 3], 0, none⟩ =
      Except.ok (⟨[2, 3], 0, some ⟨Place.CPUPlace, 24, 7⟩⟩, ⟨7, 0⟩) :=
  (mutable_data_alloc_or_reuse 4 Place.CPUPlace 7 ⟨[2, 3], 0, none⟩
    (by decide)).2.1 rfl

/-- C9: `ShareDataWith(src)` requires `src` to pass the `data` bounds
check; on success the calling tensor's full state — holder reference,
shape, and offset — becomes exactly `src`'s; on failure the
corresponding `data` error is raised and no updated state is produced
(the calling tensor is unchanged). -/
theorem share_data_with_spec (sz : Nat) (dst src : Tensor) :
    (src.check_memory_size sz = Except.ok () →
      Tensor.ShareDataWith sz dst src = Except.ok src) ∧
    (∀ e : TError, src.check_memory_size sz = Except.error e →
      Tensor.ShareDataWith sz dst src = Except.error e ∧
      src.data sz = Except.error e) := by
  constructor
  · intro hc
    simp [Tensor.ShareDataWith, hc]
  · intro e hc
    constructor
    · simp [Tensor.ShareDataWith, hc]
    · simp [Tensor.data, hc]

theorem share_data_with_spec_witness :
    Tensor.ShareDataWith 4 Tensor.empty ⟨[2], 0, some ⟨Place.CPUPlace, 8, 0⟩⟩ =
      Except.ok ⟨[2], 0, some ⟨Place.CPUPlace, 8, 0⟩⟩ :=
  (share_data_with_spec 4 Tensor.empty ⟨[2], 0, some ⟨Place.CPUPlace, 8, 0⟩⟩).1 rfl

/-- C8: for a source passing the bounds check, `ReshapeToMatrix` returns a
tensor sharing the source's holder and offset whose shape is exactly the
two extents (product of the leading `num_col_dims` extents, product of
the remaining extents), and the total element count is unchanged. -/
theorem reshape_to_matrix_spec (sz : Nat) (src : Tensor) (n : Nat)
    (hc : src.check_memory_size sz = Except.ok ()) :
    ReshapeToMatrix sz src n =
      Except.ok ⟨[(src.dims.take n).prod, (src.dims.drop n).prod],
                 src.offset, src.holder⟩ ∧
    Tensor.numel ⟨[(src.dims.take n).prod, (src.dims.drop n).prod],
                  src.offset, src.holder⟩ = src.numel := by
  constructor
  · simp [ReshapeToMatrix, Tensor.ShareDataWith, hc, flatten_to_2d, Tensor.Resize]
  · simp [Tensor.numel, List.prod_take_mul_prod_drop]

theorem reshape_to_matrix_spec_witness :
    ReshapeToMatrix 4 ⟨[2, 3, 4], 0, some ⟨Place.CPUPlace, 96, 0⟩⟩ 1 =
      Except.ok ⟨[2, 12], 0, some ⟨Place.CPUPlace, 96, 0⟩⟩ ∧
    ReshapeToMatrix 4 ⟨[2, 3, 4], 0, some ⟨Place.CPUPlace, 96, 0⟩⟩ 2 =
      Except.ok ⟨[6, 4], 0, some ⟨Place.CPUPlace, 96, 0⟩⟩ :=
  ⟨(reshape_to_matrix_spec 4 ⟨[2, 3, 4], 0, some ⟨Place.CPUPlace, 96, 0⟩⟩ 1 rfl).1,
   (reshape_to_matrix_spec 4 ⟨[2, 3, 4], 0, some ⟨Place.CPUPlace, 96, 0⟩⟩ 2 rfl).1⟩

/-- C4: for a tensor with leading extent greater than 1 that passes the
bounds check, and in-range `begin < end`, `Slice` returns a tensor
sharing the same holder reference, with the leading extent replaced by
`end - begin` and the offset advanced by
`begin * (numel / dims[0]) * sizeof(T)` bytes; no data is copied. -/
theorem slice_spec (sz : Nat) (t : Tensor) (d0 : Nat) (rest : List Nat)
    (b e : Int) (hd : t.dims = d0 :: rest) (h1 : 1 < d0)
    (hc : t.check_memory_size sz = Except.ok ())
    (hb : 0 ≤ b) (he : e ≤ (d0 : Int)) (hbe : b < e) :
    t.Slice sz b e =
      Except.ok ⟨(e - b).toNat :: rest,
                 t.offset + b.toNat * (t.numel / d0) * sz, t.holder⟩ := by
  have hb' : ¬ b < 0 := not_lt.mpr hb
  have hbe' : ¬ e ≤ b := not_le.mpr hbe
  have h1' : d0 ≠ 1 := by omega
  simp [Tensor.Slice, hc, hd, hb', hbe', h1', setLeading]
  exact he

theorem slice_spec_witness :
    Tensor.Slice 4 ⟨[5, 4], 0, some ⟨Place.CPUPlace, 80, 0⟩⟩ 1 3 =
      Except.ok ⟨[2, 4], 16, some ⟨Place.CPUPlace, 80, 0⟩⟩ :=
  slice_spec 4 ⟨[5, 4], 0, some ⟨Place.CPUPlace, 80, 0⟩⟩ 5 [4] 1 3 rfl
    (by decide) rfl (by decide) (by decide) (by decide)

/-- C2 counterexample: on a one-row tensor, `Slice` with an out-of-range
end index is rejected by the end-bound enforce rather than returning the
tensor unchanged — the bounds enforces run before the `dims[0] == 1`
early return. -/
theorem slice_degenerate_cx :
    Tensor.Slice 8 ⟨[1], 0, some ⟨Place.CPUPlace, 8, 0⟩⟩ 0 2 =
      Except.error TError.sliceEndOOB ∧
    Tensor.Slice 8 ⟨[1], 0, some ⟨Place.CPUPlace, 8, 0⟩⟩ 0 2 ≠
      Except.ok ⟨[1], 0, some ⟨Place.CPUPlace, 8, 0⟩⟩ := by
  constructor
  · rfl
  · intro h
    rw [show Tensor.Slice 8 ⟨[1], 0, some ⟨Place.CPUPlace, 8, 0⟩⟩ 0 2 =
          Except.error TError.sliceEndOOB from rfl] at h
    exact Except.noConfusion h

/-- C2 amended: on a one-row tensor passing the bounds check, `Slice`
returns the tensor unchanged for every in-range choice of begin and end
(necessarily `begin = 0`, `end = 1`); out-of-range begin or end is
rejected by the same bounds enforces as in the general case, not
silently ignored. -/
theorem slice_degenerate_amended (sz : Nat) (t : Tensor) (b e : Int)
    (hc : t.check_memory_size sz = Except.ok ()) (h1 : t.dims.headD 0 = 1)
    (hb : 0 ≤ b) (he : e ≤ (t.dims.headD 0 : Int)) (hbe : b < e) :
    t.Slice sz b e = Except.ok t ∧
    (∀ e2 : Int, (t.dims.headD 0 : Int) < e2 →
      t.Slice sz b e2 = Except.error TError.sliceEndOOB) ∧
    (∀ b2 : Int, b2 < 0 →
      t.Slice sz b2 e = Except.error TError.sliceBeginNeg) := by
  have hb' : ¬ b < 0 := not_lt.mpr hb
  have hbe' : ¬ e ≤ b := not_le.mpr hbe
  have he' : ¬ ((t.dims.headD 0 : Int) < e) := not_lt.mpr he
  refine ⟨?_, ?_, ?_⟩
  · simp only [Tensor.Slice, hc]
    rw [if_neg hb', if_neg he', if_neg hbe', if_pos h1]
  · intro e2 he2
    simp only [Tensor.Slice, hc]
    rw [if_neg hb', if_pos he2]
  · intro b2 hb2
    simp only [Tensor.Slice, hc]
    rw [if_pos hb2]

theorem slice_degenerate_amended_witness :
    Tensor.Slice 8 ⟨[1], 0, some ⟨Place.CPUPlace, 8, 0⟩⟩ 0 1 =
      Except.ok ⟨[1], 0, some ⟨Place.CPUPlace, 8, 0⟩⟩ :=
  (slice_degenerate_amended 8 ⟨[1], 0, some ⟨Place.CPUPlace, 8, 0⟩⟩ 0 1
    rfl rfl (by decide) (by decide) (by decide)).1

/-- C3 counterexample: a device-to-device copy whose destination endpoint
lives on a different device than `ctx` succeeds — only the source
endpoint's device identity is compared against `ctx`'s, the destination
is never checked. -/
theorem copyfrom_d2d_cx :
    Tensor.CopyFrom 8 Tensor.empty ⟨[1], 0, some ⟨Place.GPUPlace 0, 8, 0⟩⟩
        (Place.GPUPlace 1) ⟨Place.GPUPlace 0, 5⟩ 1 =
      Except.ok (⟨[1], 0, some ⟨Place.GPUPlace 1, 8, 1⟩⟩,
                 ⟨Place.GPUPlace 1, ⟨1, 0⟩, Place.GPUPlace 0, ⟨0, 0⟩, 8, some 5⟩) := by
  rfl

/-- Helper: `mutable_data` succeeds whenever `numel` is positive. -/
theorem mutable_data_isOk (sz : Nat) (place : Place) (fresh : Nat)
    (t : Tensor) (hn : 0 < t.numel) :
    ∃ r : Tensor × Ptr, t.mutable_data sz place fresh = Except.ok r := by
  unfold Tensor.mutable_data
  rw [if_pos hn]
  cases ht : t.holder with
  | none => exact ⟨_, rfl⟩
  | some h =>
    dsimp only
    by_cases hcnd : h.place = place ∧ t.numel * sz + t.offset ≤ h.size
    · rw [if_pos hcnd]
      exact ⟨_, rfl⟩
    · rw [if_neg hcnd]
      exact ⟨_, rfl⟩

/-- Helper: `data` succeeds with the pointer into the holder whenever the
memory check passes. -/
theorem data_ok_of_check (sz : Nat) (t : Tensor) (h : Holder)
    (hh : t.holder = some h) (hc : t.check_memory_size sz = Except.ok ()) :
    t.data sz = Except.ok ⟨h.id, t.offset⟩ := by
  simp [Tensor.data, hc, hh]

/-- C3 amended: for a device-to-device copy whose earlier steps succeed,
the call fails fatally unless `ctx` is bound to a device Place whose
device identity exactly equals the SOURCE endpoint's device (a
host-bound `ctx` and a device-bound `ctx` on any other device both
fail); the destination endpoint's device is never compared to `ctx`, so
any destination device is accepted. -/
theorem copyfrom_d2d_ctx (sz : Nat) (dst src : Tensor) (sh : Holder)
    (sdev ddev : Nat) (ctx : DeviceContext) (fresh : Nat)
    (hh : src.holder = some sh) (hsp : sh.place = Place.GPUPlace sdev)
    (hc : src.check_memory_size sz = Except.ok ()) (hn : 0 < src.numel) :
    (ctx.place = Place.GPUPlace sdev →
      ∃ r : Tensor × CopyArgs,
        Tensor.CopyFrom sz dst src (Place.GPUPlace ddev) ctx fresh =
          Except.ok r) ∧
    (ctx.place = Place.CPUPlace →
      Tensor.CopyFrom sz dst src (Place.GPUPlace ddev) ctx fresh =
        Except.error TError.ctxNotGpu) ∧
    (∀ cdev : Nat, ctx.place = Place.GPUPlace cdev → cdev ≠ sdev →
      Tensor.CopyFrom sz dst src (Place.GPUPlace ddev) ctx fresh =
        Except.error TError.ctxDeviceMismatch) := by
  have hdata : src.data sz = Except.ok ⟨sh.id, src.offset⟩ :=
    data_ok_of_check sz src sh hh hc
  have hn2 : 0 < (dst.Resize src.dims).numel := hn
  obtain ⟨⟨dst1, dptr⟩, hmd⟩ :=
    mutable_data_isOk sz (Place.GPUPlace ddev) fresh (dst.Resize src.dims) hn2
  refine ⟨?_, ?_, ?_⟩
  · intro hctx
    refine ⟨(dst1, ⟨Place.GPUPlace ddev, dptr, Place.GPUPlace sdev,
      ⟨sh.id, src.offset⟩, src.numel * sz, some ctx.stream⟩), ?_⟩
    simp only [Tensor.CopyFrom, hc, hh, hdata, hmd, hsp, hctx]
    simp
  · intro hctx
    simp only [Tensor.CopyFrom, hc, hh, hdata, hmd, hsp, hctx]
  · intro cdev hctx hne
    simp only [Tensor.CopyFrom, hc, hh, hdata, hmd, hsp, hctx]
    rw [if_neg (fun hEq => hne (hEq.symm))]

theorem copyfrom_d2d_ctx_witness :
    Tensor.CopyFrom 8 Tensor.empty ⟨[1], 0, some ⟨Place.GPUPlace 0, 8, 0⟩⟩
        (Place.GPUPlace 0) ⟨Place.CPUPlace, 0⟩ 1 =
      Except.error TError.ctxNotGpu :=
  (copyfrom_d2d_ctx 8 Tensor.empty ⟨[1], 0, some ⟨Place.GPUPlace 0, 8, 0⟩⟩
    ⟨Place.GPUPlace 0, 8, 0⟩ 0 0 ⟨Place.CPUPlace, 0⟩ 1 rfl rfl rfl
    (by decide)).2.1 rfl
